import Mathlib

/-!
# Verification of the conversation-scoring engine of connect-dating-app

Shallow embedding of the scoring functions in `src/app.js`:

* `isRepetitiveMessage` (app.js lines 192-215),
* `calculateConversationQuality` (app.js lines 156-176),
* `calculateAvatarEvolution` (app.js lines 179-189),
* the `GREATEST` merge of the persisted avatar evolution
  (app.js lines 1364-1367).

JavaScript strings are modelled as `List Char`; `toLowerCase` is modelled
by mapping `Char.toLower` (ASCII case folding, the only folding the fixed
patterns need) and `trim` by dropping whitespace characters from both ends.
JavaScript numbers are modelled as exact rationals `ℚ` (for scores) and
`ℤ` / `ℕ` (for lengths and counts); possibly-missing record fields are
`Option` values, with `x || 0` and `x || false` embedded as `Option.getD`.
-/

namespace ConnectApp

/-! ## String model -/

/-- A JavaScript string, as its list of characters. -/
abbrev JSStr := List Char

/-- Whitespace test used by `trim`, modelled by `Char.isWhitespace`. -/
def jsWS (c : Char) : Bool := c.isWhitespace

/-- `String.prototype.toLowerCase()`, modelled as ASCII case folding. -/
def jsToLower (s : JSStr) : JSStr := s.map Char.toLower

/-- `String.prototype.trim()`: drop whitespace from both ends. -/
def jsTrim (s : JSStr) : JSStr :=
  ((s.dropWhile jsWS).reverse.dropWhile jsWS).reverse

/-! ## The low-effort pattern table of `isRepetitiveMessage`

The source declares
`[/^(hi|hey|hello|sup|yo)$/i, /^(ok|okay|k|yep|yeah)$/i, /^(\?|\?\!)$/]`
and flags when some pattern tests true on the lower-cased trimmed text.
A whole-string case-insensitive regex of literal alternatives tests true
on `s` exactly when the ASCII lower-casing of `s` equals one of the
(lower-case) alternatives; the third pattern is case-sensitive. -/

/-- Alternatives of the first regex `/^(hi|hey|hello|sup|yo)$/i`. -/
def lowEffortWords1 : List JSStr :=
  ["hi".toList, "hey".toList, "hello".toList, "sup".toList, "yo".toList]

/-- Alternatives of the second regex `/^(ok|okay|k|yep|yeah)$/i`. -/
def lowEffortWords2 : List JSStr :=
  ["ok".toList, "okay".toList, "k".toList, "yep".toList, "yeah".toList]

/-- Alternatives of the third regex `/^(\?|\?\!)$/` (case-sensitive). -/
def lowEffortWords3 : List JSStr :=
  ["?".toList, "?!".toList]

/-- `lowEffortPatterns.some(pattern => pattern.test(s))` of the source:
the first two regexes carry the `/i` flag, the third does not. -/
def matchesLowEffortPattern (s : JSStr) : Bool :=
  lowEffortWords1.contains (jsToLower s) ||
  lowEffortWords2.contains (jsToLower s) ||
  lowEffortWords3.contains s

/-! ## Repetition classifier -/

/-- A prior message as consumed by the classifier: only its
`message_text` field is read. -/
structure PrevMessage where
  message_text : JSStr
deriving DecidableEq

/-- Embedding of `isRepetitiveMessage(messageText, previousMessages)`
(app.js lines 192-215): guard on fewer than 2 prior messages, take
`previousMessages.slice(-5)`, lower-case and trim the text, collect exact
duplicates, then test short length, the low-effort patterns, and finally
duplication, in the source's order. -/
def isRepetitiveMessage (messageText : JSStr) (previousMessages : List PrevMessage) :
    Bool :=
  if previousMessages.length < 2 then false
  else
    let recentMessages := previousMessages.drop (previousMessages.length - 5)
    let lowerText := jsTrim (jsToLower messageText)
    let exactDupes :=
      recentMessages.filter (fun msg => jsTrim (jsToLower msg.message_text) == lowerText)
    if (jsTrim messageText).length < 10 then true
    else if matchesLowEffortPattern lowerText then true
    else decide (0 < exactDupes.length)

/-- Reference classifier, written from the claim's rule list: (1) fewer
than 2 prior messages → `false`; (2) trimmed length < 10 → `true`;
(3) the lower-cased trimmed text is exactly one of the fixed words →
`true`; (4) otherwise `true` iff it equals the lower-cased trimmed text of
one of the last 5 prior messages. -/
def classifyRepetitiveRef (messageText : JSStr) (previousMessages : List PrevMessage) :
    Bool :=
  if previousMessages.length < 2 then false
  else if (jsTrim messageText).length < 10 then true
  else if lowEffortWords1.contains (jsTrim (jsToLower messageText)) ||
      lowEffortWords2.contains (jsTrim (jsToLower messageText)) ||
      lowEffortWords3.contains (jsTrim (jsToLower messageText)) then true
  else
    (previousMessages.drop (previousMessages.length - 5)).any
      (fun msg => jsTrim (jsToLower msg.message_text) == jsTrim (jsToLower messageText))

/-- `isRepetitiveMessage` with the low-effort pattern branch removed,
everything else verbatim. -/
def isRepetitiveMessageNoPattern (messageText : JSStr) (previousMessages : List PrevMessage) :
    Bool :=
  if previousMessages.length < 2 then false
  else
    let recentMessages := previousMessages.drop (previousMessages.length - 5)
    let lowerText := jsTrim (jsToLower messageText)
    let exactDupes :=
      recentMessages.filter (fun msg => jsTrim (jsToLower msg.message_text) == lowerText)
    if (jsTrim messageText).length < 10 then true
    else decide (0 < exactDupes.length)

/-! ## Conversation quality -/

/-- A message row as consumed by `calculateConversationQuality`: the
`message_length` and `is_repetitive` columns, either of which may be
missing (`none`). -/
structure Message where
  message_length : Option ℤ
  is_repetitive : Option Bool
deriving DecidableEq

/-- Embedding of `calculateConversationQuality(messages)` (app.js lines
156-176): early return 0.0 on the empty list, then one `forEach` pass
accumulating `totalScore` and `validMessages`, reading
`msg.message_length || 0` and `msg.is_repetitive || false`, and finally
`Math.min(totalScore / validMessages * 2, 1.0)` unless no message was
valid. -/
def calculateConversationQuality (messages : List Message) : ℚ :=
  if messages.length = 0 then 0
  else
    let acc : ℚ × ℕ := messages.foldl
      (fun st msg =>
        let length : ℤ := msg.message_length.getD 0
        let isRepetitive := msg.is_repetitive.getD false
        if !isRepetitive && decide (20 < length) then
          (st.1 + min ((length : ℚ) / 100) 0.5, st.2 + 1)
        else st)
      (0, 0)
    if acc.2 = 0 then 0 else min (acc.1 / (acc.2 : ℚ) * 2) 1

/-- The `msg.message_length || 0` read. -/
def msgLength (m : Message) : ℤ := m.message_length.getD 0

/-- The `msg.is_repetitive || false` read. -/
def msgRepetitive (m : Message) : Bool := m.is_repetitive.getD false

/-- Validity test of the reference definition: not flagged repetitive and
length strictly greater than 20. -/
def validMessage (m : Message) : Bool :=
  !msgRepetitive m && decide (20 < msgLength m)

/-- Per-message contribution of the reference definition:
`min(length / 100, 0.5)`. -/
def contribution (m : Message) : ℚ := min ((msgLength m : ℚ) / 100) 0.5

/-- Reference score, written from the claim's words: filter the valid
messages, sum their contributions, return 0 when none is valid and
`min((total / validCount) * 2, 1.0)` otherwise. -/
def scoreConversationRef (messages : List Message) : ℚ :=
  let valid := messages.filter validMessage
  if valid.length = 0 then 0
  else min (((valid.map contribution).sum / (valid.length : ℚ)) * 2) 1

/-- Normalisation described by the error-handling claim: a missing or
negative length becomes 0, a missing repetitive flag becomes `false`. -/
def normalizeMessage (m : Message) : Message :=
  { message_length := some (max (m.message_length.getD 0) 0)
    is_repetitive := some (m.is_repetitive.getD false) }

/-! ## Avatar evolution -/

/-- The connection aggregate as consumed by `calculateAvatarEvolution`:
the `conversation_quality_score` and `message_count` fields, either of
which may be missing. -/
structure Connection where
  conversation_quality_score : Option ℚ
  message_count : Option ℕ
deriving DecidableEq

/-- Embedding of `calculateAvatarEvolution(connection)` (app.js lines
179-189), including the `balance` local that the final formula never
reads. -/
def calculateAvatarEvolution (connection : Connection) : ℚ :=
  let baseQuality := connection.conversation_quality_score.getD 0
  let messageCount := connection.message_count.getD 0
  let balance : ℚ := if 0 < connection.message_count.getD 0 then 0.5 else 0
  let qualityWeight : ℚ := 0.7
  let volumeWeight : ℚ := 0.3
  let volumeScore := min ((messageCount : ℚ) / 20) 1
  min (baseQuality * qualityWeight + volumeScore * volumeWeight) 1

/-- `calculateAvatarEvolution` with the `balance` line removed, everything
else verbatim. -/
def calculateAvatarEvolutionNoBalance (connection : Connection) : ℚ :=
  let baseQuality := connection.conversation_quality_score.getD 0
  let messageCount := connection.message_count.getD 0
  let qualityWeight : ℚ := 0.7
  let volumeWeight : ℚ := 0.3
  let volumeScore := min ((messageCount : ℚ) / 20) 1
  min (baseQuality * qualityWeight + volumeScore * volumeWeight) 1

/-- The spec's two-argument interface `computeEvolution(messageCount,
qualityScore)`: `calculateAvatarEvolution` on a connection carrying
exactly those two fields. -/
def computeEvolution (messageCount : ℕ) (qualityScore : ℚ) : ℚ :=
  calculateAvatarEvolution
    { conversation_quality_score := some qualityScore
      message_count := some messageCount }

/-- Merge of a freshly computed evolution value into the stored per-user
value, embedding `UPDATE users SET avatar_evolution =
GREATEST(avatar_evolution, $1)` (app.js lines 1364-1367): SQL `GREATEST`
of two values is their maximum. -/
def mergeAvatarEvolution (stored incoming : ℚ) : ℚ := max stored incoming

/-! ## Character-level facts about ASCII case folding -/

theorem toNat_ofNat_valid {n : Nat} (h : n.isValidChar) : (Char.ofNat n).toNat = n := by
  rw [Char.ofNat, dif_pos h]
  rfl

theorem isWhitespace_of_toNat (c : Char) (h32 : c.toNat ≠ 32) (h9 : c.toNat ≠ 9)
    (h13 : c.toNat ≠ 13) (h10 : c.toNat ≠ 10) : c.isWhitespace = false := by
  simp only [Char.isWhitespace, Bool.or_eq_false_iff, decide_eq_false_iff_not]
  refine ⟨⟨⟨?_, ?_⟩, ?_⟩, ?_⟩ <;> intro he
  · exact h32 (congrArg Char.toNat he)
  · exact h9 (congrArg Char.toNat he)
  · exact h13 (congrArg Char.toNat he)
  · exact h10 (congrArg Char.toNat he)

theorem isWhitespace_toLower (c : Char) : c.toLower.isWhitespace = c.isWhitespace := by
  unfold Char.toLower
  by_cases h : c.toNat ≥ 65 ∧ c.toNat ≤ 90
  · rw [if_pos h]
    have hv : (c.toNat + 32).isValidChar := Or.inl (by omega)
    have ht : (Char.ofNat (c.toNat + 32)).toNat = c.toNat + 32 := toNat_ofNat_valid hv
    rw [isWhitespace_of_toNat c (by omega) (by omega) (by omega) (by omega),
      isWhitespace_of_toNat (Char.ofNat (c.toNat + 32)) (by omega) (by omega) (by omega)
        (by omega)]
  · rw [if_neg h]

theorem toLower_toLower (c : Char) : c.toLower.toLower = c.toLower := by
  unfold Char.toLower
  by_cases h : c.toNat ≥ 65 ∧ c.toNat ≤ 90
  · rw [if_pos h]
    have hv : (c.toNat + 32).isValidChar := Or.inl (by omega)
    have ht : (Char.ofNat (c.toNat + 32)).toNat = c.toNat + 32 := toNat_ofNat_valid hv
    rw [if_neg (by omega)]
  · rw [if_neg h, if_neg h]

/-! ## String-level facts about `jsTrim` and `jsToLower` -/

theorem jsWS_toLower (c : Char) : jsWS c.toLower = jsWS c := isWhitespace_toLower c

theorem jsTrim_jsToLower (s : JSStr) : jsTrim (jsToLower s) = jsToLower (jsTrim s) := by
  have hp : (jsWS ∘ Char.toLower) = jsWS := funext jsWS_toLower
  unfold jsTrim jsToLower
  rw [List.dropWhile_map, hp, ← List.map_reverse, List.dropWhile_map, hp,
    ← List.map_reverse]

theorem jsToLower_jsToLower (s : JSStr) : jsToLower (jsToLower s) = jsToLower s := by
  unfold jsToLower
  rw [List.map_map]
  exact List.map_congr_left (fun c _ => toLower_toLower c)

theorem length_jsToLower (s : JSStr) : (jsToLower s).length = s.length :=
  List.length_map s Char.toLower

theorem length_jsTrim_jsToLower (s : JSStr) :
    (jsTrim (jsToLower s)).length = (jsTrim s).length := by
  rw [jsTrim_jsToLower, length_jsToLower]

/-! ## Classifier lemmas -/


theorem matchesLowEffortPattern_length {s : JSStr} (h : matchesLowEffortPattern s = true) :
    s.length < 10 := by
  have hlen : ∀ w : JSStr, jsToLower s = w → s.length = w.length := by
    intro w hw
    rw [← length_jsToLower s, hw]
  simp only [matchesLowEffortPattern, lowEffortWords1, lowEffortWords2, lowEffortWords3,
    Bool.or_eq_true, List.contains, List.elem_eq_mem, decide_eq_true_eq, List.mem_cons,
    List.mem_singleton, List.not_mem_nil, or_false] at h
  rcases h with ((h | h | h | h | h) | (h | h | h | h | h)) | (h | h) <;>
    first
      | (have hw := hlen _ h; simp only [hw]; decide)
      | (subst h; decide)

theorem filter_length_pos_eq_any (p : α → Bool) (l : List α) :
    decide (0 < (l.filter p).length) = l.any p := by
  induction l with
  | nil => rfl
  | cons a t ih =>
    rw [List.filter_cons, List.any_cons]
    by_cases hp : p a
    · simp [hp]
    · simp only [Bool.not_eq_true] at hp
      simp [hp, ih]

theorem jsToLower_lowerText (t : JSStr) :
    jsToLower (jsTrim (jsToLower t)) = jsTrim (jsToLower t) := by
  rw [← jsTrim_jsToLower, jsToLower_jsToLower]

theorem matches_lowerText (t : JSStr) :
    matchesLowEffortPattern (jsTrim (jsToLower t)) =
      (lowEffortWords1.contains (jsTrim (jsToLower t)) ||
       lowEffortWords2.contains (jsTrim (jsToLower t)) ||
       lowEffortWords3.contains (jsTrim (jsToLower t))) := by
  unfold matchesLowEffortPattern
  rw [jsToLower_lowerText]

theorem repetitive_eq_ref (text : JSStr) (prev : List PrevMessage) :
    isRepetitiveMessage text prev = classifyRepetitiveRef text prev := by
  unfold isRepetitiveMessage classifyRepetitiveRef
  by_cases h2 : prev.length < 2
  · simp [h2]
  · simp only [if_neg h2]
    by_cases hlen : (jsTrim text).length < 10
    · simp [hlen]
    · simp only [if_neg hlen]
      rw [matches_lowerText]
      by_cases hpat : (lowEffortWords1.contains (jsTrim (jsToLower text)) ||
          lowEffortWords2.contains (jsTrim (jsToLower text)) ||
          lowEffortWords3.contains (jsTrim (jsToLower text))) = true
      · simp only [hpat, if_true]
      · simp only [Bool.not_eq_true] at hpat
        simp only [hpat, if_false]
        exact filter_length_pos_eq_any _ _

theorem repetitiveNoPattern_eq (text : JSStr) (prev : List PrevMessage) :
    isRepetitiveMessageNoPattern text prev = isRepetitiveMessage text prev := by
  unfold isRepetitiveMessageNoPattern isRepetitiveMessage
  by_cases h2 : prev.length < 2
  · simp [h2]
  · simp only [if_neg h2]
    by_cases hlen : (jsTrim text).length < 10
    · simp [hlen]
    · simp only [if_neg hlen]
      have hpat : matchesLowEffortPattern (jsTrim (jsToLower text)) = false := by
        by_contra hc
        simp only [Bool.not_eq_false] at hc
        have := matchesLowEffortPattern_length hc
        rw [length_jsTrim_jsToLower] at this
        exact hlen this
      simp [hpat]

/-! ## Conversation-quality lemmas -/


theorem quality_step_eq :
    (fun (st : ℚ × ℕ) (msg : Message) =>
        if !msg.is_repetitive.getD false && decide (20 < msg.message_length.getD 0) then
          (st.1 + min (((msg.message_length.getD 0 : ℤ) : ℚ) / 100) 0.5, st.2 + 1)
        else st) =
      (fun st msg =>
        if validMessage msg then (st.1 + contribution msg, st.2 + 1) else st) := by
  funext st msg
  simp only [validMessage, msgRepetitive, msgLength, contribution]

theorem quality_foldl (msgs : List Message) (t : ℚ) (n : ℕ) :
    msgs.foldl
      (fun (st : ℚ × ℕ) msg =>
        if validMessage msg then (st.1 + contribution msg, st.2 + 1) else st)
      (t, n) =
    (t + ((msgs.filter validMessage).map contribution).sum,
      n + (msgs.filter validMessage).length) := by
  induction msgs generalizing t n with
  | nil => simp
  | cons m rest ih =>
    rw [List.foldl_cons, List.filter_cons]
    by_cases hv : validMessage m
    · rw [if_pos hv, if_pos hv, ih]
      simp only [List.map_cons, List.sum_cons, List.length_cons, Prod.mk.injEq]
      exact ⟨by ring, by omega⟩
    · rw [if_neg hv, if_neg hv, ih]

theorem calc_eq_ref (msgs : List Message) :
    calculateConversationQuality msgs = scoreConversationRef msgs := by
  simp only [calculateConversationQuality, scoreConversationRef]
  rw [quality_step_eq]
  by_cases h0 : msgs.length = 0
  · have hnil : msgs = [] := List.length_eq_zero.mp h0
    subst hnil
    simp
  · rw [if_neg h0, quality_foldl]
    simp only [zero_add]

theorem sum_le_of_forall_le (l : List ℚ) (c : ℚ) (h : ∀ x ∈ l, c ≤ x) :
    c * l.length ≤ l.sum := by
  induction l with
  | nil => simp
  | cons a t ih =>
    rw [List.sum_cons, List.length_cons]
    have h1 := h a (List.mem_cons_self a t)
    have h2 := ih (fun x hx => h x (List.mem_cons_of_mem a hx))
    push_cast
    linarith

theorem contribution_lb {m : Message} (h : validMessage m = true) :
    21/100 ≤ contribution m := by
  unfold validMessage at h
  rw [Bool.and_eq_true, decide_eq_true_eq] at h
  unfold contribution
  apply le_min
  · have h21 : (21 : ℤ) ≤ msgLength m := by omega
    have h21q : (21 : ℚ) ≤ (msgLength m : ℚ) := by exact_mod_cast h21
    linarith
  · norm_num

theorem quality_zero_or_lb (msgs : List Message) :
    calculateConversationQuality msgs = 0 ∨
      21/50 ≤ calculateConversationQuality msgs := by
  rw [calc_eq_ref]
  simp only [scoreConversationRef]
  by_cases h0 : (msgs.filter validMessage).length = 0
  · left
    rw [if_pos h0]
  · right
    rw [if_neg h0]
    have hlen : 0 < (msgs.filter validMessage).length := Nat.pos_of_ne_zero h0
    have hL : (0:ℚ) < ((msgs.filter validMessage).length : ℚ) := by exact_mod_cast hlen
    have hsum : (21/100 : ℚ) * ((msgs.filter validMessage).length : ℚ) ≤
        ((msgs.filter validMessage).map contribution).sum := by
      have hall : ∀ x ∈ (msgs.filter validMessage).map contribution, (21/100 : ℚ) ≤ x := by
        intro x hx
        obtain ⟨m, hm, rfl⟩ := List.mem_map.mp hx
        exact contribution_lb (List.mem_filter.mp hm).2
      have := sum_le_of_forall_le _ _ hall
      rwa [List.length_map] at this
    apply le_min
    · have h1 : (21/100 : ℚ) ≤
          ((msgs.filter validMessage).map contribution).sum /
            ((msgs.filter validMessage).length : ℚ) := by
        rw [le_div_iff₀ hL]
        exact hsum
      linarith
    · norm_num

theorem quality_le_one (msgs : List Message) : calculateConversationQuality msgs ≤ 1 := by
  rw [calc_eq_ref]
  simp only [scoreConversationRef]
  by_cases h0 : (msgs.filter validMessage).length = 0
  · rw [if_pos h0]
    norm_num
  · rw [if_neg h0]
    exact min_le_right _ _

theorem quality_nonneg (msgs : List Message) : 0 ≤ calculateConversationQuality msgs := by
  rcases quality_zero_or_lb msgs with h | h
  · rw [h]
  · linarith



/-! ## Avatar-evolution lemmas -/

theorem computeEvolution_eq (mc : ℕ) (q : ℚ) :
    computeEvolution mc q = min (q * 0.7 + min ((mc : ℚ) / 20) 1 * 0.3) 1 := rfl

theorem computeEvolution_mono {mc1 mc2 : ℕ} {q1 q2 : ℚ} (hm : mc1 ≤ mc2) (hq : q1 ≤ q2) :
    computeEvolution mc1 q1 ≤ computeEvolution mc2 q2 := by
  rw [computeEvolution_eq, computeEvolution_eq]
  apply min_le_min _ le_rfl
  have hmq : (mc1 : ℚ) ≤ (mc2 : ℚ) := by exact_mod_cast hm
  have hv : min ((mc1 : ℚ) / 20) 1 ≤ min ((mc2 : ℚ) / 20) 1 :=
    min_le_min (by linarith) le_rfl
  have h1 : q1 * 0.7 ≤ q2 * 0.7 := mul_le_mul_of_nonneg_right hq (by norm_num)
  have h2 : min ((mc1 : ℚ) / 20) 1 * 0.3 ≤ min ((mc2 : ℚ) / 20) 1 * 0.3 :=
    mul_le_mul_of_nonneg_right hv (by norm_num)
  linarith

theorem computeEvolution_bounds (mc : ℕ) {q : ℚ} (hq : 0 ≤ q) :
    0 ≤ computeEvolution mc q ∧ computeEvolution mc q ≤ 1 := by
  rw [computeEvolution_eq]
  constructor
  · apply le_min _ (by norm_num)
    have hv : (0:ℚ) ≤ min ((mc : ℚ) / 20) 1 := by
      apply le_min _ (by norm_num)
      positivity
    nlinarith
  · exact min_le_right _ _

theorem computeEvolution_neg : computeEvolution 0 (-1) = -(7/10) := by
  rw [computeEvolution_eq]
  norm_num [min_def]

theorem computeEvolution_ten_half : computeEvolution 10 (1/2) = 1/2 := by
  rw [computeEvolution_eq]
  norm_num [min_def]

theorem computeEvolution_zero : computeEvolution 0 0 = 0 := by
  rw [computeEvolution_eq]
  norm_num [min_def]



/-! ## Normalisation lemmas -/

theorem validMessage_normalize (m : Message) :
    validMessage (normalizeMessage m) = validMessage m := by
  unfold validMessage normalizeMessage msgRepetitive msgLength
  simp only [Option.getD_some]
  congr 1
  apply decide_eq_decide.mpr
  constructor
  · intro h
    rcases lt_max_iff.mp h with h' | h'
    · exact h'
    · norm_num at h'
  · intro h
    exact lt_max_iff.mpr (Or.inl h)

theorem contribution_normalize {m : Message} (hv : validMessage m = true) :
    contribution (normalizeMessage m) = contribution m := by
  unfold validMessage at hv
  rw [Bool.and_eq_true, decide_eq_true_eq] at hv
  unfold contribution normalizeMessage msgLength at *
  simp only [Option.getD_some]
  rw [max_eq_left (by omega : (0:ℤ) ≤ m.message_length.getD 0)]

theorem quality_normalize (msgs : List Message) :
    calculateConversationQuality (msgs.map normalizeMessage) =
      calculateConversationQuality msgs := by
  rw [calc_eq_ref, calc_eq_ref]
  simp only [scoreConversationRef]
  rw [List.filter_map]
  have hval : (validMessage ∘ normalizeMessage) = validMessage :=
    funext validMessage_normalize
  rw [hval]
  have hmap : ((msgs.filter validMessage).map normalizeMessage).map contribution =
      (msgs.filter validMessage).map contribution := by
    rw [List.map_map]
    apply List.map_congr_left
    intro m hm
    exact contribution_normalize (List.mem_filter.mp hm).2
  rw [hmap, List.length_map]

theorem quality_nil : calculateConversationQuality [] = 0 := rfl

theorem quality_single_50 :
    calculateConversationQuality [⟨some 50, some false⟩] = 1 := by
  rw [calc_eq_ref]
  have hv : validMessage ⟨some 50, some false⟩ = true := by decide
  simp only [scoreConversationRef, List.filter, hv]
  norm_num [contribution, msgLength, min_def]

end ConnectApp
namespace ConnectApp

/-! ## The claims -/

/-- C1: `isRepetitiveMessage` decides the repetitive flag by applying, in
order with first match winning: fewer than 2 prior messages → `false`;
trimmed length < 10 → `true`; lower-cased trimmed text equal to one of the
fixed low-effort words → `true`; otherwise `true` iff the lower-cased
trimmed text equals that of one of the last 5 prior messages, older
messages never being consulted. -/
theorem claim_C1 :
    ∀ (text : JSStr) (prev : List PrevMessage),
      isRepetitiveMessage text prev = classifyRepetitiveRef text prev :=
  repetitive_eq_ref

/-- C2: `calculateConversationQuality` equals the reference definition
(valid = non-repetitive and length > 20, contribution `min(length/100,
0.5)`, result 0 with no valid message and `min((total/validCount)*2, 1)`
otherwise); a single non-repetitive message of length 50 scores exactly
1. -/
theorem claim_C2 :
    (∀ msgs : List Message,
        calculateConversationQuality msgs = scoreConversationRef msgs) ∧
      calculateConversationQuality [⟨some 50, some false⟩] = 1 :=
  ⟨calc_eq_ref, quality_single_50⟩

/-- C3: `computeEvolution` returns exactly
`min(qualityScore*0.7 + min(messageCount/20, 1)*0.3, 1)`, with
`computeEvolution 10 0.5 = 0.5` and `computeEvolution 0 0 = 0`. -/
theorem claim_C3 :
    (∀ (mc : ℕ) (q : ℚ),
        computeEvolution mc q = min (q * 0.7 + min ((mc : ℚ) / 20) 1 * 0.3) 1) ∧
      computeEvolution 10 0.5 = 0.5 ∧ computeEvolution 0 0 = 0 :=
  ⟨computeEvolution_eq, by norm_num [computeEvolution_eq, min_def], computeEvolution_zero⟩

/-- C4 (counterexample): at messageCount 0 and qualityScore -1 the output
of `computeEvolution` is -0.7, outside [0,1]: the code clamps only from
above, so the claim fails for a negative quality score. -/
theorem claim_C4_counterexample :
    ¬ (0 ≤ computeEvolution 0 (-1) ∧ computeEvolution 0 (-1) ≤ 1) := by
  intro h
  have h1 := h.1
  rw [computeEvolution_neg] at h1
  norm_num at h1

/-- C4 (amended): for every message list the output of
`calculateConversationQuality` lies in [0,1]; and for every messageCount
and every nonnegative qualityScore the output of `computeEvolution` lies
in [0,1] (the upper clamp is unconditional, but there is no lower clamp,
so negative quality scores are not clamped to 0). -/
theorem claim_C4 :
    (∀ msgs : List Message,
        0 ≤ calculateConversationQuality msgs ∧ calculateConversationQuality msgs ≤ 1) ∧
      ∀ (mc : ℕ) (q : ℚ), 0 ≤ q →
        0 ≤ computeEvolution mc q ∧ computeEvolution mc q ≤ 1 :=
  ⟨fun msgs => ⟨quality_nonneg msgs, quality_le_one msgs⟩,
    fun mc _ hq => computeEvolution_bounds mc hq⟩

/-- C4 witness: the amended bound instantiated at messageCount 5 and
qualityScore 0. -/
theorem claim_C4_witness :
    (0 : ℚ) ≤ 0 ∧ (0 ≤ computeEvolution 5 0 ∧ computeEvolution 5 0 ≤ 1) :=
  ⟨le_refl 0, claim_C4.2 5 0 (le_refl 0)⟩

/-- C5: `computeEvolution` is monotonically non-decreasing in both the
message count and the quality score. -/
theorem claim_C5 :
    ∀ (mc1 mc2 : ℕ) (q1 q2 : ℚ), mc1 ≤ mc2 → q1 ≤ q2 →
      computeEvolution mc1 q1 ≤ computeEvolution mc2 q2 :=
  fun _ _ _ _ hm hq => computeEvolution_mono hm hq

/-- C5 witness: monotonicity instantiated at message counts 1 ≤ 3 and
quality scores 0 ≤ 1. -/
theorem claim_C5_witness :
    1 ≤ 3 ∧ (0 : ℚ) ≤ 1 ∧ computeEvolution 1 0 ≤ computeEvolution 3 1 :=
  ⟨by decide, zero_le_one, claim_C5 1 3 0 1 (by decide) zero_le_one⟩

/-- C6: replacing every missing or negative message length by 0 and every
missing repetitive flag by `false` never changes the output of
`calculateConversationQuality`, and the empty message list yields the
default output 0 rather than an error. -/
theorem claim_C6 :
    (∀ msgs : List Message,
        calculateConversationQuality (msgs.map normalizeMessage) =
          calculateConversationQuality msgs) ∧
      calculateConversationQuality [] = 0 :=
  ⟨quality_normalize, quality_nil⟩

/-- C7: merging a freshly computed evolution value into the stored
per-user value stores the maximum of the two, so the stored value never
decreases (and the merge result is never below the incoming value
either). -/
theorem claim_C7 :
    ∀ stored incoming : ℚ,
      mergeAvatarEvolution stored incoming = max stored incoming ∧
        stored ≤ mergeAvatarEvolution stored incoming ∧
        incoming ≤ mergeAvatarEvolution stored incoming :=
  fun s i => ⟨rfl, le_max_left s i, le_max_right s i⟩

/-- C8: the `balance` variable computed inside `calculateAvatarEvolution`
never influences its result: the function with the balance computation
removed is extensionally equal to the function as written. -/
theorem claim_C8 :
    ∀ c : Connection, calculateAvatarEvolutionNoBalance c = calculateAvatarEvolution c :=
  fun _ => rfl

/-- C9: `calculateConversationQuality` returns either exactly 0 or a value
at least 0.42: every valid message has integer length at least 21, hence
contributes at least 0.21, so the doubled average is at least 0.42. -/
theorem claim_C9 :
    ∀ msgs : List Message,
      calculateConversationQuality msgs = 0 ∨
        0.42 ≤ calculateConversationQuality msgs := by
  intro msgs
  rcases quality_zero_or_lb msgs with h | h
  · exact Or.inl h
  · right
    have h42 : (0.42 : ℚ) = 21/50 := by norm_num
    rw [h42]
    exact h

/-- C10: every string whose lower-cased trimmed form matches one of the
fixed low-effort patterns has trimmed length below 10, so the
short-message rule already flags it; consequently the classifier with the
pattern check removed is extensionally equal to `isRepetitiveMessage`. -/
theorem claim_C10 :
    (∀ text : JSStr,
        matchesLowEffortPattern (jsTrim (jsToLower text)) = true →
          (jsTrim text).length < 10) ∧
      ∀ (text : JSStr) (prev : List PrevMessage),
        isRepetitiveMessageNoPattern text prev = isRepetitiveMessage text prev :=
  ⟨fun text h => by
      rw [← length_jsTrim_jsToLower]
      exact matchesLowEffortPattern_length h,
    repetitiveNoPattern_eq⟩

/-- C10 witness: the pattern-rule redundancy instantiated at the text
`" HI "`, whose lower-cased trimmed form matches the first pattern. -/
theorem claim_C10_witness :
    matchesLowEffortPattern (jsTrim (jsToLower (" HI ".toList))) = true ∧
      (jsTrim (" HI ".toList)).length < 10 :=
  ⟨by decide, claim_C10.1 (" HI ".toList) (by decide)⟩

end ConnectApp
